import Mathlib

/-!
Shallow Lean embedding of the data-store MCP server's core logic
(`src/mcp/database-source.ts`, `src/mcp/utilities/connection.ts`, the latest
server revision, and the backend variants under `src/mcp/sources/`).

The third-party parsers (node-sql-parser's `astify`, graphql's `parse`,
`JSON.parse`) are external libraries: their *results* are modelled as data
(a list of statement nodes, a single node, or a thrown error) and the
repository's own code that consumes those results is translated faithfully.
-/

namespace DataStore

/-! ## SQL intent classifier (`SqlDataSource` in `src/mcp/database-source.ts`) -/

/-- The `type` tag of a statement node produced by node-sql-parser's `astify`.
The classifier only compares it against `'select'`, `'insert'`, `'update'` and
`'delete'`; every other tag is `other`. -/
inductive SqlNodeType
  | select
  | insert
  | update
  | delete
  | other
  deriving DecidableEq, Repr

/-- One statement node of the AST; the classifier only reads `node.type`. -/
structure SqlNode where
  type : SqlNodeType
  deriving DecidableEq, Repr

/-- Result of a successful `parser.astify(sql)` call: either an array of
statement nodes or a single (non-array) statement object. -/
inductive SqlAst
  | list (nodes : List SqlNode)
  | single (node : SqlNode)
  deriving DecidableEq, Repr

namespace SqlDataSource

/-- `SqlDataSource.isMutation` (database-source.ts lines 234-241) applied to a
successfully parsed AST: on an array, `ast.some(node => node.type === 'insert'
|| node.type === 'update' || node.type === 'delete')`; on a non-array result,
`true`. -/
def isMutationAst : SqlAst → Bool
  | .list nodes =>
      nodes.any fun node =>
        node.type == .insert || node.type == .update || node.type == .delete
  | .single _ => true

/-- `SqlDataSource.isSelect` (database-source.ts lines 246-250) applied to a
successfully parsed AST: `Array.isArray(ast) ? ast.every(node => node.type ===
'select') : ast.type === 'select'`. -/
def isSelectAst : SqlAst → Bool
  | .list nodes => nodes.all fun node => node.type == .select
  | .single node => node.type == .select

/-- `isMutation` on the full parse outcome: when `astify` throws, the exception
propagates out of `isMutation` (there is no try/catch around `#parseQuery`). -/
def isMutationE : Except String SqlAst → Except String Bool
  | .error e => .error e
  | .ok ast => .ok (isMutationAst ast)

/-- `isSelect` on the full parse outcome: when `astify` throws, the exception
propagates out of `isSelect` (there is no try/catch around `#parseQuery`). -/
def isSelectE : Except String SqlAst → Except String Bool
  | .error e => .error e
  | .ok ast => .ok (isSelectAst ast)

end SqlDataSource

/-! ## Connection registry and access gate (`src/mcp/utilities/connection.ts`) -/

/-- The slice of a connection descriptor that the dispatcher core reads:
`disallowedTools` defaults to the empty list (`options.disallowedTools ?? []`). -/
structure DataSourceConfig where
  id : String
  disallowedTools : List String
  deriving DecidableEq, Repr

/-- `isAllowed` (connection.ts lines 91-94):
`!(options.disallowedTools ?? []).includes(action)`. -/
def isAllowed (options : DataSourceConfig) (action : String) : Bool :=
  !(options.disallowedTools.contains action)

/-- `isAllowedError` (connection.ts lines 99-100). -/
def isAllowedError (action : String) : String :=
  "Running the " ++ action ++
    " tool is not allowed for this connection as it is added to the 'disallowedTools' configuration file. Either remove it from the list or use a different connection."

/-- Error thrown by `getSource` when no descriptor matches the requested id
(connection.ts lines 60-61). -/
def connectionNotFoundError (connectionId : String) : String :=
  "Connection id not found: \"" ++ connectionId ++ "\". Try again using a different connection"

/-- Observable backend interactions of one tool invocation. -/
inductive Event
  | connect
  | driverQuery (sql : String)
  | close
  deriving DecidableEq, Repr

/-- How a tool handler finishes: `thrown` is an exception escaping the handler,
`text` is a rendered textual response (`returnText`). -/
inductive ToolOutcome
  | thrown (msg : String)
  | text (msg : String)
  deriving DecidableEq, Repr

/-- A finished tool invocation: the backend events it performed, in order, and
its outcome. -/
structure ToolRun where
  events : List Event
  outcome : ToolOutcome
  deriving DecidableEq, Repr

/-! ## Payload normalizer (`DataSource.getPayloadObject`, database-source.ts) -/

/-- `DataSource.getPayloadMissingKeyError` (database-source.ts lines 114-122). -/
def getPayloadMissingKeyError (missingKeys : List String) : String :=
  let missingKeyString :=
    if missingKeys.length > 1 then
      "The payload is missing the following keys: `" ++
        String.intercalate "`, `" missingKeys ++ "`.\n"
    else if missingKeys.length == 1 then
      "The payload is missing the following key `" ++ missingKeys.headD "" ++ "`.\n"
    else ""
  missingKeyString ++ "To get a valid `payload`, run the #payload tool."

/-- `DataSource.getPayloadInvalidValueError` (database-source.ts lines 127-135). -/
def getPayloadInvalidValueError (invalidKeyValues : List String) : String :=
  let missingKeyString :=
    if invalidKeyValues.length > 1 then
      "The payload has invalid values for the following keys: `" ++
        String.intercalate "`, `" invalidKeyValues ++ "`.\n"
    else if invalidKeyValues.length == 1 then
      "The payload has an invalid value for the following key: `" ++
        invalidKeyValues.headD "" ++ "`.\n"
    else ""
  missingKeyString ++ "To get a valid `payload`, run the #payload tool."

/-- A request's raw `payload` field: either an already structured object or a
serialized string carried together with its `JSON.parse` outcome (`JSON.parse`
itself is an external library; its result on the given string is data here). -/
inductive RawPayload (P : Type)
  | obj (o : P)
  | str (parseResult : Except String P)

/-- `DataSource.getPayloadObject` (database-source.ts lines 189-200): a string
payload is `JSON.parse`d; on failure it throws
`Invalid JSON in payload string.\n<err>\n<generic payload hint>`. -/
def getPayloadObject (P : Type) : RawPayload P → Except String P
  | .obj o => .ok o
  | .str (.ok o) => .ok o
  | .str (.error e) =>
      .error ("Invalid JSON in payload string.\n" ++ e ++ "\n" ++
        getPayloadMissingKeyError [])

/-! ## Tool dispatcher (latest server revision, `src/unnamed/part_010`)

Every verb handler has the same shape:
```
const { source } = await getSource(request, await getFolders());   // constructs + connects
if (!isAllowed(source.connectionConfig, TOOL)) throw new Error(isAllowedError(TOOL));
<optional SQL intent guard>
try { result = await source.VERB(); } catch (error) { return returnText('Failed ...'); }
source.close();
return returnText(result);
```
`getSource` (connection.ts lines 50-85) resolves the descriptor, constructs the
variant (whose constructor runs `getPayloadObject`) and then, with
`shouldConnect` defaulting to true, awaits `source.connect()` — all before the
handler's deny-list check and outside its try/catch. -/

/-- A generic verb handler with the operation body abstracted: `body` is the
pair (backend events, outcome) produced once the gate lets the verb run.
`connectionFound` says whether some loaded descriptor matches the request id,
and `raw` is the request's raw payload. -/
def runNamedTool (P : Type) (connectionId : String) (connectionFound : Bool)
    (raw : RawPayload P) (cfg : DataSourceConfig) (tool : String)
    (body : P → List Event × ToolOutcome) : ToolRun :=
  if connectionFound = false then
    { events := [], outcome := .thrown (connectionNotFoundError connectionId) }
  else
    match getPayloadObject P raw with
    | .error e => { events := [], outcome := .thrown e }
    | .ok p =>
      if isAllowed cfg tool = false then
        { events := [Event.connect], outcome := .thrown (isAllowedError tool) }
      else
        { events := Event.connect :: (body p).1, outcome := (body p).2 }

/-- The `mutation` tool handler (part_010 lines 624-642): no intent guard; the
operation call is wrapped in try/catch and rendered as
`Failed to run mutation on data source. <msg>` on error, else the source is
closed and the result rendered. `mutationOp p` is the backend operation's
outcome on the normalized payload. -/
def runMutationTool (P : Type) (connectionId : String) (connectionFound : Bool)
    (raw : RawPayload P) (cfg : DataSourceConfig)
    (mutationOp : P → Except String String) : ToolRun :=
  runNamedTool P connectionId connectionFound raw cfg "mutation" fun p =>
    match mutationOp p with
    | .error e => ([], .text ("Failed to run mutation on data source. " ++ e))
    | .ok r => ([Event.close], .text r)

/-- `needle` starts at some position of `hay` (helper for `containsSubstr`). -/
def substrAux (needle : List Char) : List Char → Bool
  | [] => needle.isEmpty
  | c :: rest => needle.isPrefixOf (c :: rest) || substrAux needle rest

/-- `needle` occurs as a contiguous substring of `hay`. -/
def containsSubstr (needle hay : String) : Bool :=
  substrAux needle.toList hay.toList

/-- A backend mutation operation that always fails (used to exercise the
dispatcher's catch-and-render path on a concrete input). -/
def failingMutationOp (_ : Unit) : Except String String :=
  Except.error "connection refused"

/-! ## SQL select path (`select` handler, part_010 lines 646-667, and
`Postgres.select`, `src/mcp/sources/sql/postgres.ts` lines 45-51) -/

/-- What a SQL select call works on: the payload's `sql` text together with the
outcome of node-sql-parser's `astify` on that text (the parser is an external
library, so its result on the given text is carried as data). -/
structure SqlSelectState where
  sql : String
  ast : Except String SqlAst

/-- The fixed intent-guard failure text used by both the handler and
`Postgres.select`. -/
def notSelectText : String :=
  "The provided SQL query is not a SELECT statement."

/-- `Postgres.select`: re-checks `isSelect` (throwing `notSelectText`),
requires a non-empty `sql` string (`if (!payload.sql) throw ...`), then runs
`connection.query(payload.sql)`; the returned events record the driver call
and `driverResult` stands for whatever the external driver returns. -/
def postgresSelect (st : SqlSelectState) (driverResult : String) :
    Except String (List Event × String) :=
  match st.ast with
  | .error e => .error e
  | .ok ast =>
    if SqlDataSource.isSelectAst ast = false then .error notSelectText
    else if st.sql = "" then .error "SQL query is required for select."
    else .ok ([Event.driverQuery st.sql], driverResult)

/-- The `select` tool handler for a SQL-backed connection: after `getSource`
(which connects) and the access gate, the guard `source.isSelect()` runs
outside the try/catch (so a parser throw escapes the handler); when the guard
is false the handler returns `notSelectText` without calling the backend verb;
otherwise `Postgres.select` runs inside the try/catch and the source is closed
on success. -/
def runSqlSelectTool (connectionId : String) (connectionFound : Bool)
    (cfg : DataSourceConfig) (st : SqlSelectState) (driverResult : String) : ToolRun :=
  if connectionFound = false then
    { events := [], outcome := .thrown (connectionNotFoundError connectionId) }
  else if isAllowed cfg "select" = false then
    { events := [Event.connect], outcome := .thrown (isAllowedError "select") }
  else
    match st.ast with
    | .error e => { events := [Event.connect], outcome := .thrown e }
    | .ok ast =>
      if SqlDataSource.isSelectAst ast = false then
        { events := [Event.connect], outcome := .text notSelectText }
      else
        match postgresSelect st driverResult with
        | .error e =>
            { events := [Event.connect],
              outcome := .text ("Failed to run select on data source. " ++ e) }
        | .ok (evs, r) =>
            { events := Event.connect :: evs ++ [Event.close], outcome := .text r }

/-! ## Duplicate connection-id check (`connections` tool, part_010 latest
revision, lines 552-571) -/

/-- The parsed JSON content of one descriptor source file: an array of
descriptors or the single-object form (only the ids matter to the check). -/
inductive ConnJson
  | array (ids : List String)
  | object (id : String)
  deriving DecidableEq, Repr

/-- `Array.isArray(conn) ? conn[0].id : conn.id` (part_010 line 561): for the
array form only the FIRST descriptor's id is read; on an empty array the
access `conn[0].id` is a TypeError. -/
def firstId : ConnJson → Except String String
  | .array [] => .error "TypeError: Cannot read properties of undefined"
  | .array (i :: _) => .ok i
  | .object i => .ok i

/-- Append `file` to the entry for `id` in the id-to-files map (a JS `Map`
preserves first-seen insertion order). -/
def addIdFile : List (String × List String) → String → String → List (String × List String)
  | [], id, file => [(id, [file])]
  | (k, fs) :: rest, id, file =>
    if k = id then (k, fs ++ [file]) :: rest
    else (k, fs) :: addIdFile rest id file

/-- The `connections.forEach` loop (part_010 lines 560-564): take the first id
of each source in order and record which file it came from. -/
def collectIds (acc : List (String × List String)) :
    List (String × ConnJson) → Except String (List (String × List String))
  | [] => .ok acc
  | (file, conn) :: rest =>
    match firstId conn with
    | .error e => .error e
    | .ok id => collectIds (addIdFile acc id file) rest

/-- part_010 lines 565-571: ids recorded for more than one file are
duplicates; a nonempty duplicate list throws the enumerated error, listing
every file for each duplicated id. `.ok ()` means the check passed. -/
def duplicatesCheck (sources : List (String × ConnJson)) : Except String Unit :=
  match collectIds [] sources with
  | .error e => .error e
  | .ok m =>
    let duplicates := m.filter fun kv => kv.2.length > 1
    if duplicates.length > 0 then
      .error ("Duplicate connection ids found (These must be resolved):\n" ++
        String.intercalate "\n"
          (duplicates.map fun kv => "  - " ++ kv.1 ++ ": " ++ String.intercalate ", " kv.2))
    else .ok ()

/-! ## Graceful shutdown (`DataSource.safeClose`, database-source.ts lines
144-183)

Discrete-time model of the promise race: `closeFn` either resolves at time
`t` ms, rejects at time `t` ms, or never settles; the timer fires at
`timeoutMs`. From the code: `closed` is set only when `closeFn` resolves; the
timer callback invokes `fallbackFn` inside try/catch iff `closed` is still
false, then resolves the race; if `closeFn` rejects before the timer,
`Promise.race` rejects, the outer catch invokes `fallbackFn` inside try/catch
and swallows everything. Control therefore returns at the earlier of the
settle time and `timeoutMs`, and no error ever propagates; `fallbackThrows`
records whether the fallback itself throws (swallowed by both try/catch
blocks, hence absent from the outcome). -/

/-- Behavior of the primary close routine. -/
inductive PrimaryBehavior
  | resolvesAt (t : Nat)
  | rejectsAt (t : Nat)
  | never
  deriving DecidableEq, Repr

/-- What the caller of `safeClose` observes. -/
structure SafeCloseOutcome where
  returnsAt : Nat
  fallbackRan : Bool
  propagatedError : Bool
  deriving DecidableEq, Repr

/-- The default `timeoutMs` of `safeClose` (database-source.ts line 147). -/
def safeCloseDefaultTimeout : Nat := 2000

/-- `DataSource.safeClose` in the discrete-time model described above. -/
def safeClose (prim : PrimaryBehavior) (hasFallback _fallbackThrows : Bool)
    (timeoutMs : Nat) : SafeCloseOutcome :=
  match prim with
  | .resolvesAt t =>
    if t < timeoutMs then
      { returnsAt := t, fallbackRan := false, propagatedError := false }
    else
      { returnsAt := timeoutMs, fallbackRan := hasFallback, propagatedError := false }
  | .rejectsAt t =>
    if t < timeoutMs then
      { returnsAt := t, fallbackRan := hasFallback, propagatedError := false }
    else
      { returnsAt := timeoutMs, fallbackRan := hasFallback, propagatedError := false }
  | .never =>
    { returnsAt := timeoutMs, fallbackRan := hasFallback, propagatedError := false }

/-! ## GraphQL variant (`src/mcp/sources/http/graphql.ts`) -/

/-- Operation type of a GraphQL OperationDefinition. -/
inductive GqlOperationType
  | query
  | mutation
  | subscription
  deriving DecidableEq, Repr

/-- One definition of a parsed GraphQL document: an OperationDefinition
carrying its operation type, or a non-operation definition (e.g. a
FragmentDefinition, for which `def.operation` is undefined). -/
inductive GqlDefinition
  | operation (op : GqlOperationType)
  | fragment
  deriving DecidableEq, Repr

namespace GraphQL

/-- `GraphQL.isSelect` (graphql.ts lines 107-110):
`parsed.definitions.every(i => i.kind === 'OperationDefinition' && i.operation === 'query')`. -/
def isSelectDoc (doc : List GqlDefinition) : Bool :=
  doc.all fun d =>
    match d with
    | .operation .query => true
    | _ => false

/-- `GraphQL.isMutation` (graphql.ts lines 112-115):
`parsed.definitions.some(i => i.kind === 'OperationDefinition' && i.operation === 'mutation')`. -/
def isMutationDoc (doc : List GqlDefinition) : Bool :=
  doc.any fun d =>
    match d with
    | .operation .mutation => true
    | _ => false

/-- `GraphQL.select` (graphql.ts lines 59-62): `parse(this.payload.query)`
happens inside `isSelect` and a parse failure propagates; if `isSelect` is
false the invalid-value error for `query` is thrown; otherwise the HTTP POST
is sent (`.ok ()` means `makeHttpRequest` was invoked). -/
def select (parsed : Except String (List GqlDefinition)) : Except String Unit :=
  match parsed with
  | .error e => .error e
  | .ok doc =>
    if isSelectDoc doc then .ok ()
    else .error (getPayloadInvalidValueError ["query"])

/-- `GraphQL.mutation` (graphql.ts lines 67-70): if `isMutation` is false the
invalid-value error for `query` is thrown; otherwise the request is sent. -/
def mutationOp (parsed : Except String (List GqlDefinition)) : Except String Unit :=
  match parsed with
  | .error e => .error e
  | .ok doc =>
    if isMutationDoc doc then .ok ()
    else .error (getPayloadInvalidValueError ["query"])

/-- `GraphQL.insert` (graphql.ts lines 71-73): `return this.mutation()`. -/
def insert : Except String (List GqlDefinition) → Except String Unit :=
  mutationOp

/-- `GraphQL.update` (graphql.ts lines 74-76): `return this.mutation()`. -/
def update : Except String (List GqlDefinition) → Except String Unit :=
  mutationOp

/-- `GraphQL.delete` (graphql.ts lines 77-79): `return this.mutation()`. -/
def delete : Except String (List GqlDefinition) → Except String Unit :=
  mutationOp

end GraphQL

/-! ## FTP variant (`src/mcp/sources/http/ftp.ts`) -/

/-- A node of the remote directory tree (the external FTP server's state):
`client.list(path)` on a directory yields its children. -/
inductive FtpNode
  | file (name : String)
  | dir (name : String) (children : List FtpNode)
  deriving Repr

/-- The payload fields `showSchema` reads (ftp.ts lines 205-208); optional
fields model the `?? default` reads. -/
structure FTPPayload where
  method : String
  path : Option String
  maxResults : Option Nat
  onlyDirectories : Option Bool
  deriving DecidableEq, Repr

/-- JS `Set.add`: appends unless already present (iteration keeps insertion
order, which `[...files]` exposes). -/
def setAdd (s : List String) (x : String) : List String :=
  if s.contains x then s else s ++ [x]

/-- `files.size >= maxResults`; `none` models `Infinity` (maxResults 0). -/
def capReached (maxResults : Option Nat) (files : List String) : Bool :=
  match maxResults with
  | none => false
  | some m => files.length ≥ m

/-- `path.posix.join` for the normalized directory paths arising in the
traversal. -/
def joinPath (dir name : String) : String :=
  if dir = "/" then "/" ++ name else dir ++ "/" ++ name

/-- The inner `for (const item of contents)` loop (ftp.ts lines 242-253):
directories are pushed onto the stack and, when `onlyDirectories`, added to
`files` with NO cap check; files are added when not `onlyDirectories`,
followed by the `files.size >= maxResults` break. Returns the updated stack
(top at head) and `files`. -/
def processListing (onlyDirectories : Bool) (maxResults : Option Nat) (dirPath : String) :
    List FtpNode → List (String × List FtpNode) → List String →
      List (String × List FtpNode) × List String
  | [], stack, files => (stack, files)
  | node :: rest, stack, files =>
    match node with
    | .dir name children =>
      let itemPath := joinPath dirPath name
      let stack2 := (itemPath, children) :: stack
      let files2 := if onlyDirectories then setAdd files itemPath else files
      processListing onlyDirectories maxResults dirPath rest stack2 files2
    | .file name =>
      let itemPath := joinPath dirPath name
      let files2 := if onlyDirectories then files else setAdd files itemPath
      if capReached maxResults files2 then (stack, files2)
      else processListing onlyDirectories maxResults dirPath rest stack files2

/-- The outer `while (pathsToVisit.length > 0 && files.size < maxResults)`
loop (ftp.ts lines 214-254), fuel-bounded; with fuel left and a nonempty
stack below the cap, pop the top path, process its listing, continue. -/
def showSchemaLoop (onlyDirectories : Bool) (maxResults : Option Nat) :
    Nat → List (String × List FtpNode) → List String → List String
  | 0, _, files => files
  | fuel + 1, stack, files =>
    match stack with
    | [] => files
    | (p, contents) :: rest =>
      if capReached maxResults files then files
      else
        let sr := processListing onlyDirectories maxResults p contents rest files
        showSchemaLoop onlyDirectories maxResults fuel sr.1 sr.2

/-- `FTP.showSchema` (ftp.ts lines 204-260): defaults `maxResults` to 100 with
0 meaning unlimited, path to `/`, `onlyDirectories` to false, then runs the
traversal from the initial path (whose listing is `root`). The 550-error
branch for file paths is not reached here because only directories are ever
pushed. -/
def ftpShowSchema (p : FTPPayload) (root : List FtpNode) (fuel : Nat) : List String :=
  let maxResults0 := p.maxResults.getD 100
  let mr : Option Nat := if maxResults0 = 0 then none else some maxResults0
  let payloadPath := p.path.getD "/"
  let onlyDirectories := p.onlyDirectories.getD false
  showSchemaLoop onlyDirectories mr fuel [(payloadPath, root)] []

/-- Result of `FTP.select` (ftp.ts lines 117-122): method SELECT routes to
`showSchema`; any other method takes the GET/download branch. -/
inductive FtpSelectResult
  | schemaListing (entries : List String)
  | getBranch
  deriving DecidableEq, Repr

/-- `FTP.select`: `if (this.payload.method === 'SELECT') return this.showSchema();`. -/
def ftpSelect (p : FTPPayload) (root : List FtpNode) (fuel : Nat) : FtpSelectResult :=
  if p.method = "SELECT" then .schemaListing (ftpShowSchema p root fuel)
  else .getBranch

/-! ## REST variant (`src/mcp/sources/http/rest.ts`) -/

/-- The payload fields the REST select path reads; `method` is `none` when the
payload omits it. -/
structure HttpPayload where
  endpoint : Option String
  method : Option String
  deriving DecidableEq, Repr

namespace Rest

/-- `Rest.isSelect` (rest.ts lines 83-85): `this.payload.method === 'GET'`;
an omitted method is `undefined`, which is not `'GET'`. -/
def isSelect (p : HttpPayload) : Bool :=
  p.method == some "GET"

/-- The method `#buildAndSendRequest` actually sends (rest.ts line 23):
`payload.method ?? 'GET'`. -/
def defaultedMethod (p : HttpPayload) : String :=
  p.method.getD "GET"

/-- `Rest.select` (rest.ts lines 36-40): throw the invalid-value error for
`method` unless `isSelect`; then `#buildAndSendRequest` requires `endpoint`
and sends, returning the endpoint and the method used. -/
def select (p : HttpPayload) : Except String (String × String) :=
  if isSelect p = false then .error (getPayloadInvalidValueError ["method"])
  else
    match p.endpoint with
    | none => .error "An `endpoint` key is required for a REST API operation."
    | some e => .ok (e, defaultedMethod p)

end Rest

end DataStore

namespace DataStore

/-- C1 counterexample: the claim says `isSelect` returns false for an empty
statement list (N = 0) and for a single statement not returned as a list. On
the code, `[].every(...)` is vacuously true, and the non-array branch returns
`ast.type === 'select'`, so both cases yield `true` for SELECT content. -/
theorem claim_C1_counterexample :
    SqlDataSource.isSelectAst (SqlAst.list []) = true ∧
    SqlDataSource.isSelectAst (SqlAst.single ⟨SqlNodeType.select⟩) = true := by
  constructor <;> rfl

/-- C1 (amended): `isSelect` is true iff the parse yields a list all of whose
statements are SELECT (vacuously true for an empty list) or a single non-list
statement whose type is SELECT; when the parse throws, `isSelect` propagates
the parser error instead of returning false. -/
theorem claim_C1_isSelect_characterization (ast : SqlAst) (e : String) :
    (SqlDataSource.isSelectAst ast = true ↔
      ((∃ nodes, ast = SqlAst.list nodes ∧ ∀ n ∈ nodes, n.type = SqlNodeType.select) ∨
       (∃ node, ast = SqlAst.single node ∧ node.type = SqlNodeType.select))) ∧
    SqlDataSource.isSelectE (Except.error e) = Except.error e := by
  refine ⟨?_, rfl⟩
  cases ast with
  | list nodes =>
      simp [SqlDataSource.isSelectAst, List.all_eq_true]
  | single node =>
      simp [SqlDataSource.isSelectAst]

/-- C1 witness: instantiates the amended characterization on a concrete
two-statement SELECT list. -/
theorem claim_C1_witness :
    (SqlDataSource.isSelectAst
        (SqlAst.list [⟨SqlNodeType.select⟩, ⟨SqlNodeType.select⟩]) = true ↔
      ((∃ nodes, SqlAst.list [⟨SqlNodeType.select⟩, ⟨SqlNodeType.select⟩] = SqlAst.list nodes ∧
          ∀ n ∈ nodes, n.type = SqlNodeType.select) ∨
       (∃ node, SqlAst.list [⟨SqlNodeType.select⟩, ⟨SqlNodeType.select⟩] = SqlAst.single node ∧
          node.type = SqlNodeType.select))) ∧
    SqlDataSource.isSelectE (Except.error "syntax error") = Except.error "syntax error" :=
  claim_C1_isSelect_characterization
    (SqlAst.list [⟨SqlNodeType.select⟩, ⟨SqlNodeType.select⟩]) "syntax error"

/-- C2: `isMutation` returns true whenever some parsed statement is an INSERT,
UPDATE or DELETE, returns true whenever the parse yields a single non-list
statement object, and a parse failure is never classified as a pure read (the
parser error propagates; `isMutation` never returns false for it). -/
theorem claim_C2_isMutation (nodes : List SqlNode) (node : SqlNode) (e : String) :
    ((∃ n ∈ nodes,
        n.type = SqlNodeType.insert ∨ n.type = SqlNodeType.update ∨
          n.type = SqlNodeType.delete) →
      SqlDataSource.isMutationAst (SqlAst.list nodes) = true) ∧
    SqlDataSource.isMutationAst (SqlAst.single node) = true ∧
    SqlDataSource.isMutationE (Except.error e) ≠ Except.ok false := by
  refine ⟨?_, rfl, by simp [SqlDataSource.isMutationE]⟩
  intro ⟨n, hn, hty⟩
  simp only [SqlDataSource.isMutationAst, List.any_eq_true]
  exact ⟨n, hn, by rcases hty with h | h | h <;> simp [h]⟩

/-- C2 witness: a batch containing one UPDATE is classified as a mutation, a
single non-list node is a mutation, and a parse failure is not a pure read. -/
theorem claim_C2_witness :
    ((∃ n ∈ [SqlNode.mk SqlNodeType.select, SqlNode.mk SqlNodeType.update],
        n.type = SqlNodeType.insert ∨ n.type = SqlNodeType.update ∨
          n.type = SqlNodeType.delete) →
      SqlDataSource.isMutationAst
        (SqlAst.list [SqlNode.mk SqlNodeType.select, SqlNode.mk SqlNodeType.update]) = true) ∧
    SqlDataSource.isMutationAst (SqlAst.single ⟨SqlNodeType.other⟩) = true ∧
    SqlDataSource.isMutationE (Except.error "syntax error") ≠ Except.ok false :=
  claim_C2_isMutation [⟨SqlNodeType.select⟩, ⟨SqlNodeType.update⟩]
    ⟨SqlNodeType.other⟩ "syntax error"

/-- C3 counterexample: with `disallowedTools: ["delete"]` the `delete` tool
does fail with the access-denied message, but `connect()` has already been
invoked on the backend: `getSource` connects before the handler's deny-list
check, so the check does not run strictly before `connect()`. -/
theorem claim_C3_counterexample :
    (runNamedTool Unit "db1" true (RawPayload.obj ())
        ⟨"db1", ["delete"]⟩ "delete" (fun _ => ([], ToolOutcome.text "unused"))).outcome =
      ToolOutcome.thrown (isAllowedError "delete") ∧
    Event.connect ∈
      (runNamedTool Unit "db1" true (RawPayload.obj ())
        ⟨"db1", ["delete"]⟩ "delete" (fun _ => ([], ToolOutcome.text "unused"))).events := by
  exact ⟨rfl, by decide⟩

/-- C3 (amended): for every tool in (select, insert, update, delete, mutation,
schema) whose name is in the connection's `disallowedTools`, the call fails
with the access-denied message naming the operation and the operation body is
never run — but `connect()` IS invoked on the backend first, because
`getSource` (which constructs and connects) runs before the deny-list check;
the events of the failed call are exactly `[connect]`. -/
theorem claim_C3_deny_list (P : Type) (connectionId : String)
    (raw : RawPayload P) (cfg : DataSourceConfig) (tool : String)
    (body : P → List Event × ToolOutcome) (p : P)
    (hparse : getPayloadObject P raw = Except.ok p)
    (htool : tool ∈ ["select", "insert", "update", "delete", "mutation", "schema"])
    (hdeny : cfg.disallowedTools.contains tool = true) :
    (runNamedTool P connectionId true raw cfg tool body).outcome =
        ToolOutcome.thrown (isAllowedError tool) ∧
    (runNamedTool P connectionId true raw cfg tool body).events = [Event.connect] ∧
    containsSubstr tool (isAllowedError tool) = true := by
  have hallow : isAllowed cfg tool = false := by
    unfold isAllowed
    rw [hdeny]
    rfl
  refine ⟨?_, ?_, ?_⟩
  · simp [runNamedTool, hparse, hallow]
  · simp [runNamedTool, hparse, hallow]
  · simp only [List.mem_cons, List.not_mem_nil, or_false] at htool
    rcases htool with rfl | rfl | rfl | rfl | rfl | rfl <;> decide

/-- C3 witness: the delete tool on a connection disallowing `delete`. -/
theorem claim_C3_witness :
    (runNamedTool Unit "db1" true (RawPayload.obj ())
        ⟨"db1", ["delete"]⟩ "delete" (fun _ => ([Event.close], ToolOutcome.text "unused"))).outcome =
        ToolOutcome.thrown (isAllowedError "delete") ∧
    (runNamedTool Unit "db1" true (RawPayload.obj ())
        ⟨"db1", ["delete"]⟩ "delete" (fun _ => ([Event.close], ToolOutcome.text "unused"))).events =
        [Event.connect] ∧
    containsSubstr "delete" (isAllowedError "delete") = true :=
  claim_C3_deny_list Unit "db1" (RawPayload.obj ()) ⟨"db1", ["delete"]⟩ "delete"
    (fun _ => ([Event.close], ToolOutcome.text "unused")) () rfl (by decide) (by decide)

/-- C7 counterexample: a request whose serialized payload string is not valid
JSON makes the mutation tool invocation end with a thrown exception — the
payload is normalized in the `DataSource` constructor inside `getSource`,
before the handler's try/catch, so the PayloadError is not converted into a
textual failure response. -/
theorem claim_C7_counterexample :
    (runMutationTool Unit "db1" true
        (RawPayload.str (Except.error "Unexpected token o in JSON at position 1"))
        ⟨"db1", []⟩ (fun _ => Except.ok "done")).outcome =
      ToolOutcome.thrown ("Invalid JSON in payload string.\nUnexpected token o in JSON at position 1\n" ++
        getPayloadMissingKeyError []) := rfl

/-- C7 (amended): a malformed serialized payload makes the error escape the
tool handler as a thrown exception (raised while `getSource` constructs the
source, before the handler's try/catch, and before `connect()`), directing the
caller to the payload discovery hint; only errors thrown by the operation call
itself are caught at the dispatcher and rendered as failure text. -/
theorem claim_C7_payload_error (P : Type) (connectionId : String)
    (cfg : DataSourceConfig) (mutationOp : P → Except String String)
    (e e2 : String) (p : P)
    (hallow : isAllowed cfg "mutation" = true)
    (hop : mutationOp p = Except.error e2) :
    (runMutationTool P connectionId true (RawPayload.str (Except.error e))
          cfg mutationOp).outcome =
        ToolOutcome.thrown ("Invalid JSON in payload string.\n" ++ e ++ "\n" ++
          getPayloadMissingKeyError []) ∧
    (runMutationTool P connectionId true (RawPayload.str (Except.error e))
          cfg mutationOp).events = [] ∧
    (runMutationTool P connectionId true (RawPayload.obj p) cfg mutationOp).outcome =
      ToolOutcome.text ("Failed to run mutation on data source. " ++ e2) := by
  refine ⟨rfl, rfl, ?_⟩
  simp [runMutationTool, runNamedTool, getPayloadObject, hallow, hop]

/-- C7 witness: concrete malformed payload string and a concrete failing
operation. -/
theorem claim_C7_witness :
    (runMutationTool Unit "db1" true (RawPayload.str (Except.error "Unexpected end of JSON input"))
          ⟨"db1", []⟩ failingMutationOp).outcome =
        ToolOutcome.thrown ("Invalid JSON in payload string.\n" ++ "Unexpected end of JSON input" ++
          "\n" ++ getPayloadMissingKeyError []) ∧
    (runMutationTool Unit "db1" true (RawPayload.str (Except.error "Unexpected end of JSON input"))
          ⟨"db1", []⟩ failingMutationOp).events = [] ∧
    (runMutationTool Unit "db1" true (RawPayload.obj ()) ⟨"db1", []⟩ failingMutationOp).outcome =
      ToolOutcome.text ("Failed to run mutation on data source. " ++ "connection refused") :=
  claim_C7_payload_error Unit "db1" ⟨"db1", []⟩ failingMutationOp
    "Unexpected end of JSON input" "connection refused" () rfl rfl

/-- C4: on a SQL-backed connection, a payload classified as not a SELECT makes
the `select` tool return the fixed "not a SELECT statement" text with no
driver call, while a payload classified as a SELECT (with non-empty sql) has
its query forwarded to the driver and the driver result rendered. -/
theorem claim_C4_select_guard (connectionId : String) (cfg : DataSourceConfig)
    (st : SqlSelectState) (ast : SqlAst) (driverResult : String)
    (hallow : isAllowed cfg "select" = true)
    (hast : st.ast = Except.ok ast) :
    (SqlDataSource.isSelectAst ast = false →
      (runSqlSelectTool connectionId true cfg st driverResult).outcome =
          ToolOutcome.text notSelectText ∧
      ∀ s, Event.driverQuery s ∉ (runSqlSelectTool connectionId true cfg st driverResult).events) ∧
    (SqlDataSource.isSelectAst ast = true → st.sql ≠ "" →
      Event.driverQuery st.sql ∈ (runSqlSelectTool connectionId true cfg st driverResult).events ∧
      (runSqlSelectTool connectionId true cfg st driverResult).outcome =
          ToolOutcome.text driverResult) ∧
    containsSubstr "not a SELECT statement" notSelectText = true := by
  refine ⟨?_, ?_, by decide⟩
  · intro hsel
    constructor
    · simp [runSqlSelectTool, hallow, hast, hsel]
    · intro s
      simp [runSqlSelectTool, hallow, hast, hsel]
  · intro hsel hsql
    constructor
    · simp [runSqlSelectTool, postgresSelect, hallow, hast, hsel, hsql]
    · simp [runSqlSelectTool, postgresSelect, hallow, hast, hsel, hsql]

/-- C4 witness: `{sql: "DELETE FROM users"}` (one delete statement) on the
select tool of an unrestricted SQL connection. -/
theorem claim_C4_witness :
    (SqlDataSource.isSelectAst (SqlAst.list [⟨SqlNodeType.delete⟩]) = false →
      (runSqlSelectTool "db1" true ⟨"db1", []⟩
          ⟨"DELETE FROM users", Except.ok (SqlAst.list [⟨SqlNodeType.delete⟩])⟩ "rows").outcome =
          ToolOutcome.text notSelectText ∧
      ∀ s, Event.driverQuery s ∉ (runSqlSelectTool "db1" true ⟨"db1", []⟩
          ⟨"DELETE FROM users", Except.ok (SqlAst.list [⟨SqlNodeType.delete⟩])⟩ "rows").events) ∧
    (SqlDataSource.isSelectAst (SqlAst.list [⟨SqlNodeType.delete⟩]) = true →
        "DELETE FROM users" ≠ "" →
      Event.driverQuery "DELETE FROM users" ∈ (runSqlSelectTool "db1" true ⟨"db1", []⟩
          ⟨"DELETE FROM users", Except.ok (SqlAst.list [⟨SqlNodeType.delete⟩])⟩ "rows").events ∧
      (runSqlSelectTool "db1" true ⟨"db1", []⟩
          ⟨"DELETE FROM users", Except.ok (SqlAst.list [⟨SqlNodeType.delete⟩])⟩ "rows").outcome =
          ToolOutcome.text "rows") ∧
    containsSubstr "not a SELECT statement" notSelectText = true :=
  claim_C4_select_guard "db1" ⟨"db1", []⟩
    ⟨"DELETE FROM users", Except.ok (SqlAst.list [⟨SqlNodeType.delete⟩])⟩
    (SqlAst.list [⟨SqlNodeType.delete⟩]) "rows" rfl rfl

/-- C5: the duplicate-id check reads only the FIRST descriptor of each source
file, so two sources that both define id `db1` — one of them not in first
position — pass the check without any failure, contradicting the claim (and
the comment above the code, which says duplicate ids must be found and listed
with their files); when the duplicated id IS first in both files the check
does fail and enumerates both files. -/
theorem claim_C5_duplicate_check_first_only :
    duplicatesCheck
        [("a.store.json", ConnJson.array ["alpha", "db1"]),
         ("b.store.json", ConnJson.array ["db1"])] = Except.ok () ∧
    duplicatesCheck
        [("a.store.json", ConnJson.object "db1"),
         ("b.store.json", ConnJson.object "db1")] =
      Except.error
        ("Duplicate connection ids found (These must be resolved):\n" ++
          "  - db1: a.store.json, b.store.json") := by
  constructor <;> rfl

/-- C6: in the discrete-time model of `safeClose`, control returns no later
than `timeoutMs` whatever the primary routine does (including never
settling); no error ever propagates to the caller; a primary that resolves
strictly before the timer skips the fallback; when the timer fires first
(primary never settles, or settles no earlier than the timeout) the fallback
is invoked exactly when one was supplied; the outcome is independent of
whether the fallback itself throws; and the default timeout is 2000ms. -/
theorem claim_C6_safeClose_bounded (prim : PrimaryBehavior)
    (hasFallback fallbackThrows : Bool) (timeoutMs t : Nat) :
    (safeClose prim hasFallback fallbackThrows timeoutMs).returnsAt ≤ timeoutMs ∧
    (safeClose prim hasFallback fallbackThrows timeoutMs).propagatedError = false ∧
    (prim = PrimaryBehavior.resolvesAt t → t < timeoutMs →
      (safeClose prim hasFallback fallbackThrows timeoutMs).fallbackRan = false) ∧
    (prim = PrimaryBehavior.never →
      (safeClose prim hasFallback fallbackThrows timeoutMs).fallbackRan = hasFallback) ∧
    (prim = PrimaryBehavior.resolvesAt t → timeoutMs ≤ t →
      (safeClose prim hasFallback fallbackThrows timeoutMs).fallbackRan = hasFallback) ∧
    safeClose prim hasFallback true timeoutMs = safeClose prim hasFallback false timeoutMs ∧
    safeCloseDefaultTimeout = 2000 := by
  refine ⟨?_, ?_, ?_, ?_, ?_, rfl, rfl⟩
  · cases prim <;> simp only [safeClose] <;> try split
    all_goals simp_all <;> omega
  · cases prim <;> simp only [safeClose] <;> try split
    all_goals simp
  · intro hp ht
    subst hp
    simp [safeClose, ht]
  · intro hp
    subst hp
    simp [safeClose]
  · intro hp ht
    subst hp
    simp [safeClose, Nat.not_lt.mpr ht]

/-- C6 witness: a primary close routine that never resolves, with a fallback
that itself throws, under the default 2000ms timeout. -/
theorem claim_C6_witness :
    (safeClose PrimaryBehavior.never true true 2000).returnsAt ≤ 2000 ∧
    (safeClose PrimaryBehavior.never true true 2000).propagatedError = false ∧
    (PrimaryBehavior.never = PrimaryBehavior.resolvesAt 0 → 0 < 2000 →
      (safeClose PrimaryBehavior.never true true 2000).fallbackRan = false) ∧
    (PrimaryBehavior.never = PrimaryBehavior.never →
      (safeClose PrimaryBehavior.never true true 2000).fallbackRan = true) ∧
    (PrimaryBehavior.never = PrimaryBehavior.resolvesAt 0 → 2000 ≤ 0 →
      (safeClose PrimaryBehavior.never true true 2000).fallbackRan = true) ∧
    safeClose PrimaryBehavior.never true true 2000 = safeClose PrimaryBehavior.never true false 2000 ∧
    safeCloseDefaultTimeout = 2000 :=
  claim_C6_safeClose_bounded PrimaryBehavior.never true true 2000 0

/-- Element form of `GraphQL.isSelectDoc`. -/
theorem gql_isSelectDoc_iff (doc : List GqlDefinition) :
    GraphQL.isSelectDoc doc = true ↔
      ∀ d ∈ doc, d = GqlDefinition.operation GqlOperationType.query := by
  simp only [GraphQL.isSelectDoc, List.all_eq_true]
  constructor
  · intro h d hd
    have hh := h d hd
    cases d with
    | operation op => cases op <;> simp_all
    | fragment => simp_all
  · intro h d hd
    rw [h d hd]

/-- Element form of `GraphQL.isMutationDoc`. -/
theorem gql_isMutationDoc_iff (doc : List GqlDefinition) :
    GraphQL.isMutationDoc doc = true ↔
      ∃ d ∈ doc, d = GqlDefinition.operation GqlOperationType.mutation := by
  simp only [GraphQL.isMutationDoc, List.any_eq_true]
  constructor
  · intro ⟨d, hd, hh⟩
    refine ⟨d, hd, ?_⟩
    cases d with
    | operation op => cases op <;> simp_all
    | fragment => simp_all
  · intro ⟨d, hd, hh⟩
    exact ⟨d, hd, by rw [hh]⟩

/-- C8: GraphQL `select` sends the HTTP request iff every definition of the
parsed document is an OperationDefinition whose operation is `query` (a parse
failure propagates without sending); `insert`, `update` and `delete` are the
`mutation` routine; `mutation` sends iff the document contains at least one
`mutation` operation, and otherwise fails with the invalid-value error for
`query` without sending. -/
theorem claim_C8_graphql_intent (doc : List GqlDefinition) (e : String) :
    (GraphQL.select (Except.ok doc) = Except.ok () ↔
      ∀ d ∈ doc, d = GqlDefinition.operation GqlOperationType.query) ∧
    GraphQL.select (Except.error e) = Except.error e ∧
    GraphQL.insert = GraphQL.mutationOp ∧
    GraphQL.update = GraphQL.mutationOp ∧
    GraphQL.delete = GraphQL.mutationOp ∧
    (GraphQL.mutationOp (Except.ok doc) = Except.ok () ↔
      ∃ d ∈ doc, d = GqlDefinition.operation GqlOperationType.mutation) ∧
    (GraphQL.isMutationDoc doc = false →
      GraphQL.mutationOp (Except.ok doc) =
        Except.error (getPayloadInvalidValueError ["query"])) := by
  refine ⟨?_, rfl, rfl, rfl, rfl, ?_, ?_⟩
  · rw [← gql_isSelectDoc_iff]
    simp only [GraphQL.select]
    constructor
    · intro h
      by_contra hc
      simp [Bool.not_eq_true] at hc
      simp [hc] at h
    · intro h
      simp [h]
  · rw [← gql_isMutationDoc_iff]
    simp only [GraphQL.mutationOp]
    constructor
    · intro h
      by_contra hc
      simp [Bool.not_eq_true] at hc
      simp [hc] at h
    · intro h
      simp [h]
  · intro h
    simp [GraphQL.mutationOp, h]

/-- C8 witness: a document consisting of one `query` operation and, for the
mutation path, the vacuous/active branches at that document. -/
theorem claim_C8_witness :
    (GraphQL.select (Except.ok [GqlDefinition.operation GqlOperationType.query]) = Except.ok () ↔
      ∀ d ∈ [GqlDefinition.operation GqlOperationType.query],
        d = GqlDefinition.operation GqlOperationType.query) ∧
    GraphQL.select (Except.error "Syntax Error") = Except.error "Syntax Error" ∧
    GraphQL.insert = GraphQL.mutationOp ∧
    GraphQL.update = GraphQL.mutationOp ∧
    GraphQL.delete = GraphQL.mutationOp ∧
    (GraphQL.mutationOp (Except.ok [GqlDefinition.operation GqlOperationType.query]) = Except.ok () ↔
      ∃ d ∈ [GqlDefinition.operation GqlOperationType.query],
        d = GqlDefinition.operation GqlOperationType.mutation) ∧
    (GraphQL.isMutationDoc [GqlDefinition.operation GqlOperationType.query] = false →
      GraphQL.mutationOp (Except.ok [GqlDefinition.operation GqlOperationType.query]) =
        Except.error (getPayloadInvalidValueError ["query"])) :=
  claim_C8_graphql_intent [GqlDefinition.operation GqlOperationType.query] "Syntax Error"

/-- C9: with `{method: "SELECT", path: "/", maxResults: 1, onlyDirectories:
true}` against a root holding two directories, the traversal returns TWO
entries, exceeding `maxResults = 1`: the `onlyDirectories` branch of the
inner loop adds entries without any cap check, contradicting the claim and
the payload documentation ("The maximum number of results to return"). -/
theorem claim_C9_maxResults_overshoot :
    ftpSelect ⟨"SELECT", some "/", some 1, some true⟩
        [FtpNode.dir "a" [], FtpNode.dir "b" []] 10 =
      FtpSelectResult.schemaListing ["/a", "/b"] ∧
    (ftpShowSchema ⟨"SELECT", some "/", some 1, some true⟩
        [FtpNode.dir "a" [], FtpNode.dir "b" []] 10).length = 2 := by
  constructor <;> rfl

/-- C10: REST `isSelect` is true exactly when the payload's `method` equals
`'GET'`; a payload omitting `method` makes `isSelect` false and the select
operation fails with the invalid-value error for `method`, even though the
request sender defaults an omitted method to `GET`. -/
theorem claim_C10_rest_isSelect (p : HttpPayload) :
    (Rest.isSelect p = true ↔ p.method = some "GET") ∧
    (p.method = none →
      Rest.select p = Except.error (getPayloadInvalidValueError ["method"]) ∧
      Rest.defaultedMethod p = "GET") := by
  constructor
  · simp [Rest.isSelect]
  · intro h
    constructor
    · simp [Rest.select, Rest.isSelect, h]
    · simp [Rest.defaultedMethod, h]

/-- C10 witness: a payload with an endpoint but no `method` field. -/
theorem claim_C10_witness :
    (Rest.isSelect ⟨some "https://api.example.com/users", none⟩ = true ↔
      (HttpPayload.mk (some "https://api.example.com/users") none).method = some "GET") ∧
    ((HttpPayload.mk (some "https://api.example.com/users") none).method = none →
      Rest.select ⟨some "https://api.example.com/users", none⟩ =
        Except.error (getPayloadInvalidValueError ["method"]) ∧
      Rest.defaultedMethod ⟨some "https://api.example.com/users", none⟩ = "GET") :=
  claim_C10_rest_isSelect ⟨some "https://api.example.com/users", none⟩

end DataStore
